import Mathlib

/-!
Verification of `blinkit.py`, a scraper that walks a grocery API across a
cross-product of locations and categories, normalizes product snippets to a
fixed schema and writes the rows to one CSV output.

The embedding models Python dictionaries / JSON values as `PyVal`, with
Python truthiness and `dict.get` semantics.  Attribute errors raised by
calling `.get` on a non-dictionary value are modelled with `Except Unit`.
-/

/-- A Python/JSON value as it occurs in the scraper's data flow. -/
inductive PyVal where
  | none
  | bool (b : Bool)
  | int (n : Int)
  | str (s : String)
  | list (xs : List PyVal)
  | dict (fields : List (String × PyVal))
deriving Repr

mutual

/-- Python structural equality `==` on values (`!=` is its negation). -/
def PyVal.beq : PyVal → PyVal → Bool
  | PyVal.none, PyVal.none => true
  | PyVal.bool a, PyVal.bool b => a == b
  | PyVal.int a, PyVal.int b => a == b
  | PyVal.str a, PyVal.str b => a == b
  | PyVal.list xs, PyVal.list ys => PyVal.beqList xs ys
  | PyVal.dict fs, PyVal.dict gs => PyVal.beqFields fs gs
  | _, _ => false

/-- Elementwise equality of Python lists. -/
def PyVal.beqList : List PyVal → List PyVal → Bool
  | [], [] => true
  | x :: xs, y :: ys => PyVal.beq x y && PyVal.beqList xs ys
  | _, _ => false

/-- Entrywise equality of Python dictionaries (association lists). -/
def PyVal.beqFields : List (String × PyVal) → List (String × PyVal) → Bool
  | [], [] => true
  | (k, v) :: fs, (l, w) :: gs => k == l && PyVal.beq v w && PyVal.beqFields fs gs
  | _, _ => false

end

/-- Python truthiness (`bool(v)`): `None`, `False`, `0`, `""`, `[]`, `{}` are falsy. -/
def PyVal.truthy : PyVal → Bool
  | PyVal.none => false
  | PyVal.bool b => b
  | PyVal.int n => n != 0
  | PyVal.str s => !s.isEmpty
  | PyVal.list xs => !xs.isEmpty
  | PyVal.dict fs => !fs.isEmpty

/-- Lookup of a key in a Python dictionary (association list). -/
def dictGet (fs : List (String × PyVal)) (k : String) : Option PyVal :=
  match fs.find? (fun p => p.1 == k) with
  | Option.none => Option.none
  | Option.some p => Option.some p.2

/-- Python `v.get(k, d)`.  On a dictionary it returns the stored value or the
default; on any other value `.get` raises `AttributeError`, modelled as
`Except.error ()`. -/
def pyGetD : PyVal → String → PyVal → Except Unit PyVal
  | PyVal.dict fs, k, d => Except.ok ((dictGet fs k).getD d)
  | _, _, _ => Except.error ()

/-- One row of the categories input table (columns required by the code). -/
structure Category where
  l1_category : String
  l1_category_id : String
  l2_category : String
  l2_category_id : String
deriving DecidableEq, Repr

/-- One row of the locations input table. -/
structure Location where
  latitude : Int
  longitude : Int
deriving DecidableEq, Repr

/-- The normalized product record built by `parse_product_snippet`
(`src/blinkit.py` lines 67-85). -/
structure Product where
  date : String
  l1_category : String
  l1_category_id : String
  l2_category : String
  l2_category_id : String
  store_id : PyVal
  variant_id : PyVal
  variant_name : PyVal
  group_id : PyVal
  selling_price : PyVal
  mrp : PyVal
  in_stock : Bool
  inventory : PyVal
  is_sponsored : PyVal
  image_url : PyVal
  brand_id : PyVal
  brand : PyVal
deriving Repr

/-- `data = snippet.get('data', {})` (`src/blinkit.py` line 58). -/
def snippetData (snippet : List (String × PyVal)) : PyVal :=
  (dictGet snippet "data").getD (PyVal.dict [])

/-- The record literal of `src/blinkit.py` lines 67-85, parameterized by the
values of the fallible `.get` chains.  The direct `data.get(...)` reads are
total because `ds` is already known to be a dictionary. -/
def mkProduct (ds : List (String × PyVal)) (category_info : Category)
    (scrape_date : String)
    (store_id variant_name selling_price mrp image_url brand : PyVal) :
    Product :=
  { date := scrape_date
    l1_category := category_info.l1_category
    l1_category_id := category_info.l1_category_id
    l2_category := category_info.l2_category
    l2_category_id := category_info.l2_category_id
    store_id := store_id
    variant_id := (dictGet ds "product_id").getD PyVal.none
    variant_name := variant_name
    group_id := (dictGet ds "group_id").getD PyVal.none
    selling_price := selling_price
    mrp := mrp
    in_stock := !((dictGet ds "is_sold_out").getD (PyVal.bool true)).truthy
    inventory := (dictGet ds "inventory").getD PyVal.none
    is_sponsored := (dictGet ds "is_sponsored").getD (PyVal.bool false)
    image_url := image_url
    brand_id := PyVal.none
    brand := brand }

/-- The body of `parse_product_snippet` after the guard, given that the payload
`data` is the dictionary `ds` (`src/blinkit.py` lines 62-90).  Each line is one
of the source's `.get` chains; a present, non-dictionary intermediate makes the
chained `.get` raise `AttributeError` (`Except.error ()`). -/
def parseData (ds : List (String × PyVal)) (category_info : Category)
    (scrape_date : String) : Except Unit (Option Product) := do
  let store_id ←
    pyGetD ((dictGet ds "meta").getD (PyVal.dict [])) "merchant_id" PyVal.none
  let variant_name ←
    pyGetD ((dictGet ds "name").getD (PyVal.dict [])) "text" PyVal.none
  let addToCart ←
    pyGetD ((dictGet ds "atc_action").getD (PyVal.dict [])) "add_to_cart"
      (PyVal.dict [])
  let cartItem ← pyGetD addToCart "cart_item" (PyVal.dict [])
  let selling_price ← pyGetD cartItem "price" PyVal.none
  let mrp ← pyGetD cartItem "mrp" PyVal.none
  let image_url ←
    pyGetD ((dictGet ds "image").getD (PyVal.dict [])) "url" PyVal.none
  let brand ←
    pyGetD ((dictGet ds "brand_name").getD (PyVal.dict [])) "text" PyVal.none
  let product_data : Product :=
    mkProduct ds category_info scrape_date store_id variant_name selling_price
      mrp image_url brand
  if product_data.variant_id.truthy && product_data.variant_name.truthy then
    return (Option.some product_data)
  else
    return Option.none

/-- `parse_product_snippet` (`src/blinkit.py` lines 56-90): returns
`Except.ok Option.none` for "no record", `Except.ok (Option.some p)` for an
accepted record, and `Except.error ()` when the Python code would raise. -/
def parse_product_snippet (snippet : List (String × PyVal))
    (category_info : Category) (scrape_date : String) :
    Except Unit (Option Product) :=
  if !(snippetData snippet).truthy ||
      !(PyVal.beq ((dictGet snippet "widget_type").getD PyVal.none)
        (PyVal.str "product_card_snippet_type_2")) then
    Except.ok Option.none
  else
    match snippetData snippet with
    | PyVal.dict ds => parseData ds category_info scrape_date
    | _ => Except.error ()

/-- Splitting one line's characters at commas, the comma-separated cells of a
plain (unquoted) CSV row. -/
def splitCommaList : List Char → List (List Char)
  | [] => [[]]
  | c :: rest =>
    let cells := splitCommaList rest
    if c = ',' then [] :: cells
    else (c :: cells.headD []) :: cells.tail

/-- `csv.reader`'s row for one line of the file: no cells for an empty line,
otherwise the comma-separated cells. -/
def csvRow (line : String) : List String :=
  if line = "" then []
  else (splitCommaList line.data).map (fun cs => String.mk cs)

/-- `read_schema_columns` (`src/blinkit.py` lines 43-54).  The file is a list
of lines, `Option.none` meaning the file does not exist.  `FileNotFoundError`
is caught and yields `[]`; on an empty existing file `next(f)` raises an
uncaught `StopIteration`, modelled as `Except.error ()`.  Otherwise the title
line is skipped and `row[0]` of every row with cells is collected, in order
(`[row[0] for row in reader if row]`). -/
def read_schema_columns : Option (List String) → Except Unit (List String)
  | Option.none => Except.ok []
  | Option.some [] => Except.error ()
  | Option.some (_ :: rest) =>
    Except.ok (rest.filterMap (fun line => (csvRow line).head?))

/-- The transport's answer to one page request: `fail` covers a bad HTTP
status, a network error or a JSON decoding error (anything
`session.post` / `raise_for_status` / `response.json` raises); `page` is a
successfully parsed JSON body. -/
inductive FetchResult where
  | fail
  | page (body : PyVal)
deriving Repr

/-- Outcome of one iteration of the `while next_url` loop of
`scrape_category_for_location` for the rows it wrote: continue with a next
page, stop normally (pagination exhausted or empty snippet list), or stop
because an exception was caught and one error was logged. -/
inductive StepOutcome where
  | continueNext (rows : List Product)
  | stopOk (rows : List Product)
  | stopErr (rows : List Product)
deriving Repr

/-- The `for snippet in snippets` loop (`src/blinkit.py` lines 130-134): rows
written in encounter order, paired with `false` when a snippet raised (a
non-dictionary snippet, or an exception inside `parse_product_snippet`),
which aborts the loop after the rows already written. -/
def processSnippets (snippets : List PyVal) (category_info : Category)
    (scrape_date : String) : List Product × Bool :=
  match snippets with
  | [] => ([], true)
  | s :: rest =>
    match s with
    | PyVal.dict fs =>
      match parse_product_snippet fs category_info scrape_date with
      | Except.error _ => ([], false)
      | Except.ok o =>
        let t := processSnippets rest category_info scrape_date
        (o.toList ++ t.1, t.2)
    | _ => ([], false)

/-- One iteration of the pagination loop (`src/blinkit.py` lines 115-152) on
the response to the current request. -/
def processPage (r : FetchResult) (category_info : Category)
    (scrape_date : String) : StepOutcome :=
  match r with
  | FetchResult.fail => StepOutcome.stopErr []
  | FetchResult.page body =>
    match pyGetD body "response" (PyVal.dict []) with
    | Except.error _ => StepOutcome.stopErr []
    | Except.ok resp =>
      match pyGetD resp "snippets" (PyVal.list []) with
      | Except.error _ => StepOutcome.stopErr []
      | Except.ok snippets =>
        if !snippets.truthy then StepOutcome.stopOk []
        else
          match snippets with
          | PyVal.list xs =>
            let t := processSnippets xs category_info scrape_date
            if !t.2 then StepOutcome.stopErr t.1
            else
              match pyGetD body "response" (PyVal.dict []) with
              | Except.error _ => StepOutcome.stopErr t.1
              | Except.ok resp2 =>
                match pyGetD resp2 "pagination" (PyVal.dict []) with
                | Except.error _ => StepOutcome.stopErr t.1
                | Except.ok pagin =>
                  match pyGetD pagin "next_url" PyVal.none with
                  | Except.error _ => StepOutcome.stopErr t.1
                  | Except.ok nextPath =>
                    if nextPath.truthy then StepOutcome.continueNext t.1
                    else StepOutcome.stopOk t.1
          | _ => StepOutcome.stopErr []

/-- Result of draining one (location, category) pair: the rows written to the
CSV for this pair, the number of page responses consumed, and the number of
errors logged. -/
structure PairResult where
  rows : List Product
  pagesProcessed : Nat
  errorsLogged : Nat
deriving Repr

/-- The `while next_url` loop of `scrape_category_for_location`, fed the
successive transport responses for this pair.  The loop stops inside the
list when a page terminates pagination or errors; an exhausted response list
means the server was not asked for more pages. -/
def scrapeLoop (category_info : Category) (scrape_date : String) :
    List FetchResult → PairResult
  | [] => ⟨[], 0, 0⟩
  | r :: rest =>
    match processPage r category_info scrape_date with
    | StepOutcome.stopOk rows => ⟨rows, 1, 0⟩
    | StepOutcome.stopErr rows => ⟨rows, 1, 1⟩
    | StepOutcome.continueNext rows =>
      let t := scrapeLoop category_info scrape_date rest
      ⟨rows ++ t.rows, t.pagesProcessed + 1, t.errorsLogged⟩

/-- `scrape_category_for_location` (`src/blinkit.py` lines 92-154): the
transport `api` yields the sequence of responses the server returns for the
requests of this (location, category) pair. -/
def scrape_category_for_location
    (api : Location → Category → List FetchResult) (location : Location)
    (category : Category) (scrape_date : String) : PairResult :=
  scrapeLoop category scrape_date (api location category)

/-- The inner `for category in categories` loop of `main`
(`src/blinkit.py` lines 185-187). -/
def runCats (api : Location → Category → List FetchResult)
    (scrape_date : String) (location : Location) :
    List Category → List (Location × Category × PairResult)
  | [] => []
  | c :: cs =>
    (location, c, scrape_category_for_location api location c scrape_date) ::
      runCats api scrape_date location cs

/-- The outer `for location in locations` loop of `main`
(`src/blinkit.py` lines 184-187). -/
def runPairs (api : Location → Category → List FetchResult)
    (scrape_date : String) :
    List Location → List Category → List (Location × Category × PairResult)
  | [], _ => []
  | l :: ls, cats =>
    runCats api scrape_date l cats ++ runPairs api scrape_date ls cats

/-- The inputs of one run: the three input files (`Option.none` = file does
not exist), the transport behaviour, and today's date. -/
structure Env where
  locationsFile : Option (List Location)
  categoriesFile : Option (List Category)
  schemaFile : Option (List String)
  api : Location → Category → List FetchResult
  today : String

/-- What a run produced: `aborted` = `main` returned after a logged startup
error, before the output file was opened; `crashed` = an uncaught exception
before the output file was opened; `completed` = the output file was written
with the schema header row and the per-pair results in order. -/
inductive RunResult where
  | aborted
  | crashed
  | completed (header : List String)
      (pairs : List (Location × Category × PairResult))

/-- `main` (`src/blinkit.py` lines 157-189): load the two tables and the
schema, abort on a missing table or an empty schema, otherwise write the
header and drain every (location, category) pair. -/
def mainRun (env : Env) : RunResult :=
  match env.locationsFile with
  | Option.none => RunResult.aborted
  | Option.some locations =>
    match env.categoriesFile with
    | Option.none => RunResult.aborted
    | Option.some categories =>
      match read_schema_columns env.schemaFile with
      | Except.error _ => RunResult.crashed
      | Except.ok schema_columns =>
        if schema_columns.isEmpty then RunResult.aborted
        else
          RunResult.completed schema_columns
            (runPairs env.api env.today locations categories)

/-- Whether the run opened and wrote the output file (even just the header). -/
def RunResult.outputWritten : RunResult → Bool
  | RunResult.completed _ _ => true
  | _ => false

/-- The pairs the run scraped (empty when the run never started scraping). -/
def RunResult.pairsRun : RunResult → List (Location × Category × PairResult)
  | RunResult.completed _ ps => ps
  | _ => []

/-! ## Helper lemmas -/

lemma exceptBind_ok {α β : Type} (a : α) (f : α → Except Unit β) :
    (Except.ok a >>= f) = f a := rfl

lemma exceptBind_error {α β : Type} (f : α → Except Unit β) :
    ((Except.error () : Except Unit α) >>= f) = (Except.error () : Except Unit β) :=
  rfl

lemma pyGetD_ok_iff (v : PyVal) (k : String) (d x : PyVal) :
    pyGetD v k d = Except.ok x ↔
      ∃ fs, v = PyVal.dict fs ∧ x = (dictGet fs k).getD d := by
  cases v <;> simp [pyGetD, eq_comm]

lemma beq_str_iff (w : PyVal) (s : String) :
    PyVal.beq w (PyVal.str s) = true ↔ w = PyVal.str s := by
  cases w <;> simp [PyVal.beq]

/-- Complete characterization of the post-guard normalizer body: it either
raises, or returns the gate decision on the one product record it built. -/
lemma parseData_eq (ds : List (String × PyVal)) (c : Category) (d : String) :
    parseData ds c d = Except.error () ∨
    ∃ p : Product,
      pyGetD ((dictGet ds "name").getD (PyVal.dict [])) "text" PyVal.none =
        Except.ok p.variant_name ∧
      p.variant_id = (dictGet ds "product_id").getD PyVal.none ∧
      p.in_stock = !((dictGet ds "is_sold_out").getD (PyVal.bool true)).truthy ∧
      parseData ds c d =
        Except.ok (if p.variant_id.truthy && p.variant_name.truthy
          then Option.some p else Option.none) := by
  cases hm : pyGetD ((dictGet ds "meta").getD (PyVal.dict [])) "merchant_id"
      PyVal.none with
  | error e =>
    cases e
    exact Or.inl (by simp [parseData, hm, exceptBind_ok, exceptBind_error])
  | ok store_id =>
  cases hn : pyGetD ((dictGet ds "name").getD (PyVal.dict [])) "text"
      PyVal.none with
  | error e =>
    cases e
    exact Or.inl (by simp [parseData, hm, hn, exceptBind_ok, exceptBind_error])
  | ok vname =>
  cases hat : pyGetD ((dictGet ds "atc_action").getD (PyVal.dict []))
      "add_to_cart" (PyVal.dict []) with
  | error e =>
    cases e
    exact Or.inl (by
      simp [parseData, hm, hn, hat, exceptBind_ok, exceptBind_error])
  | ok addToCart =>
  cases hci : pyGetD addToCart "cart_item" (PyVal.dict []) with
  | error e =>
    cases e
    exact Or.inl (by
      simp [parseData, hm, hn, hat, hci, exceptBind_ok, exceptBind_error])
  | ok cartItem =>
  cases hp : pyGetD cartItem "price" PyVal.none with
  | error e =>
    cases e
    exact Or.inl (by
      simp [parseData, hm, hn, hat, hci, hp, exceptBind_ok, exceptBind_error])
  | ok selling_price =>
  cases hmr : pyGetD cartItem "mrp" PyVal.none with
  | error e =>
    cases e
    exact Or.inl (by
      simp [parseData, hm, hn, hat, hci, hp, hmr, exceptBind_ok,
        exceptBind_error])
  | ok mrpv =>
  cases hiu : pyGetD ((dictGet ds "image").getD (PyVal.dict [])) "url"
      PyVal.none with
  | error e =>
    cases e
    exact Or.inl (by
      simp [parseData, hm, hn, hat, hci, hp, hmr, hiu, exceptBind_ok,
        exceptBind_error])
  | ok image_url =>
  cases hb : pyGetD ((dictGet ds "brand_name").getD (PyVal.dict [])) "text"
      PyVal.none with
  | error e =>
    cases e
    exact Or.inl (by
      simp [parseData, hm, hn, hat, hci, hp, hmr, hiu, hb, exceptBind_ok,
        exceptBind_error])
  | ok brandv =>
  refine Or.inr
    ⟨mkProduct ds c d store_id vname selling_price mrpv image_url brandv,
      ?_, rfl, rfl, ?_⟩
  · rfl
  · simp only [parseData, hm, hn, hat, hci, hp, hmr, hiu, hb, exceptBind_ok]
    split <;> rfl

/-- Complete characterization of `parse_product_snippet`: "no record", an
exception, or the gate decision on the one record built from the payload. -/
lemma parse_eq (fs : List (String × PyVal)) (c : Category) (d : String) :
    parse_product_snippet fs c d = Except.ok Option.none ∨
    parse_product_snippet fs c d = Except.error () ∨
    ∃ ds p,
      snippetData fs = PyVal.dict ds ∧
      pyGetD ((dictGet ds "name").getD (PyVal.dict [])) "text" PyVal.none =
        Except.ok p.variant_name ∧
      p.variant_id = (dictGet ds "product_id").getD PyVal.none ∧
      p.in_stock = !((dictGet ds "is_sold_out").getD (PyVal.bool true)).truthy ∧
      parse_product_snippet fs c d =
        Except.ok (if p.variant_id.truthy && p.variant_name.truthy
          then Option.some p else Option.none) := by
  cases hA : (snippetData fs).truthy with
  | false => exact Or.inl (by simp [parse_product_snippet, hA])
  | true =>
    cases hB : PyVal.beq ((dictGet fs "widget_type").getD PyVal.none)
        (PyVal.str "product_card_snippet_type_2") with
    | false => exact Or.inl (by simp [parse_product_snippet, hB])
    | true =>
      cases hdata : snippetData fs with
      | dict ds =>
        rcases parseData_eq ds c d with herr | ⟨p, h1, h2, h3, h4⟩
        · exact Or.inr (Or.inl (by
            rw [hdata] at hA
            simp [parse_product_snippet, hdata, hA, hB, herr]))
        · refine Or.inr (Or.inr ⟨ds, p, rfl, h1, h2, h3, ?_⟩)
          rw [hdata] at hA
          simp [parse_product_snippet, hdata, hA, hB, h4]
      | none => rw [hdata] at hA; simp [PyVal.truthy] at hA
      | bool b =>
        exact Or.inr (Or.inl (by
          rw [hdata] at hA
          simp [parse_product_snippet, hdata, hA, hB]))
      | int n =>
        exact Or.inr (Or.inl (by
          rw [hdata] at hA
          simp [parse_product_snippet, hdata, hA, hB]))
      | str s =>
        exact Or.inr (Or.inl (by
          rw [hdata] at hA
          simp [parse_product_snippet, hdata, hA, hB]))
      | list xs =>
        exact Or.inr (Or.inl (by
          rw [hdata] at hA
          simp [parse_product_snippet, hdata, hA, hB]))

/-- Every accepted record passed the gate and carries the payload's extracted
fields. -/
lemma parse_ok_some (fs : List (String × PyVal)) (c : Category) (d : String)
    (q : Product)
    (h : parse_product_snippet fs c d = Except.ok (Option.some q)) :
    q.variant_id.truthy = true ∧ q.variant_name.truthy = true ∧
    ∃ ds, snippetData fs = PyVal.dict ds ∧
      q.variant_id = (dictGet ds "product_id").getD PyVal.none ∧
      pyGetD ((dictGet ds "name").getD (PyVal.dict [])) "text" PyVal.none =
        Except.ok q.variant_name ∧
      q.in_stock = !((dictGet ds "is_sold_out").getD (PyVal.bool true)).truthy := by
  rcases parse_eq fs c d with h1 | h1 | ⟨ds, p, hds, hname, hvid, hstock, heq⟩
  · rw [h1] at h
    injection h with h2
    exact Option.noConfusion h2
  · rw [h1] at h
    exact Except.noConfusion h
  · rw [heq] at h
    injection h with h2
    by_cases hgate : (p.variant_id.truthy && p.variant_name.truthy) = true
    · rw [if_pos hgate] at h2
      injection h2 with h3
      subst h3
      rw [Bool.and_eq_true] at hgate
      exact ⟨hgate.1, hgate.2, ds, hds, hvid, hname, hstock⟩
    · rw [if_neg hgate] at h2
      exact Option.noConfusion h2

/-- If the call returns (no exception) and the extracted variant identifier or
variant name is falsy, the result is "no record". -/
lemma parse_ok_gate_false (fs : List (String × PyVal)) (c : Category)
    (d : String) (r : Option Product) (ds : List (String × PyVal))
    (h : parse_product_snippet fs c d = Except.ok r)
    (hds : snippetData fs = PyVal.dict ds)
    (hfalse : ((dictGet ds "product_id").getD PyVal.none).truthy = false ∨
      (∀ w, pyGetD ((dictGet ds "name").getD (PyVal.dict [])) "text"
          PyVal.none = Except.ok w → w.truthy = false)) :
    r = Option.none := by
  rcases parse_eq fs c d with h1 | h1 | ⟨ds', p, hds', hname, hvid, hstock, heq⟩
  · rw [h1] at h
    injection h with h2
    exact h2.symm
  · rw [h1] at h
    exact Except.noConfusion h
  · rw [hds'] at hds
    injection hds with hdd
    subst hdd
    rw [heq] at h
    injection h with h2
    have hgate : (p.variant_id.truthy && p.variant_name.truthy) = false := by
      rcases hfalse with hf | hf
      · simp [hvid, hf]
      · simp [hf p.variant_name hname]
    rw [hgate] at h2
    simp at h2
    exact h2.symm

/-! ## Concrete inputs used by the witnesses -/

def catW : Category := ⟨"Munchies", "1237", "Bhujia & Mixtures", "1178"⟩

def dsW1 : List (String × PyVal) :=
  [("name", PyVal.dict [("text", PyVal.str "Bhujia")])]

def fsW1 : List (String × PyVal) :=
  [("widget_type", PyVal.str "product_card_snippet_type_2"),
   ("data", PyVal.dict dsW1)]

def fsW2 : List (String × PyVal) :=
  [("widget_type", PyVal.str "product_card_snippet_type_2")]

def dsW3 : List (String × PyVal) :=
  [("product_id", PyVal.int 5),
   ("name", PyVal.dict [("text", PyVal.str "Salted Peanuts")])]

def fsW3 : List (String × PyVal) :=
  [("widget_type", PyVal.str "product_card_snippet_type_2"),
   ("data", PyVal.dict dsW3)]

def pW3 : Product :=
  mkProduct dsW3 catW "2025-10-12" PyVal.none (PyVal.str "Salted Peanuts")
    PyVal.none PyVal.none PyVal.none PyVal.none

def dsW10 : List (String × PyVal) :=
  [("product_id", PyVal.int 0),
   ("name", PyVal.dict [("text", PyVal.str "Ghost Item")])]

def fsW10 : List (String × PyVal) :=
  [("widget_type", PyVal.str "product_card_snippet_type_2"),
   ("data", PyVal.dict dsW10)]

/-! ## Claims about the Record Normalizer -/

/-- C1: the Record Normalizer emits a NormalizedProduct only if both
`variant_id` and `variant_name` are present and non-empty (truthy); whenever
the extracted variant id or variant name is missing or falsy, a returning
call yields "no record" (`Option.none`), however complete the other fields. -/
theorem c1_normalizer_requires_identifiers
    (fs : List (String × PyVal)) (c : Category) (d : String) :
    (∀ p, parse_product_snippet fs c d = Except.ok (Option.some p) →
      p.variant_id.truthy = true ∧ p.variant_name.truthy = true) ∧
    (∀ r ds, parse_product_snippet fs c d = Except.ok r →
      snippetData fs = PyVal.dict ds →
      (((dictGet ds "product_id").getD PyVal.none).truthy = false ∨
        (∀ w, pyGetD ((dictGet ds "name").getD (PyVal.dict [])) "text"
            PyVal.none = Except.ok w → w.truthy = false)) →
      r = Option.none) := by
  constructor
  · intro p hp
    obtain ⟨h1, h2, -⟩ := parse_ok_some fs c d p hp
    exact ⟨h1, h2⟩
  · intro r ds hr hds hfalse
    exact parse_ok_gate_false fs c d r ds hr hds hfalse

theorem c1_witness :
    parse_product_snippet fsW1 catW "2025-10-12" = Except.ok Option.none ∧
    ((dictGet dsW1 "product_id").getD PyVal.none).truthy = false ∧
    (Option.none : Option Product) = Option.none :=
  ⟨rfl, rfl,
    (c1_normalizer_requires_identifiers fsW1 catW "2025-10-12").2 Option.none
      dsW1 rfl rfl (Or.inl rfl)⟩

/-- C2: a snippet whose `widget_type` differs from
`product_card_snippet_type_2`, or whose `data` payload is empty or absent
(falsy), is rejected with "no record" for any category and date. -/
theorem c2_normalizer_rejects_wrong_widget_or_empty_payload
    (fs : List (String × PyVal)) (c : Category) (d : String)
    (h : (dictGet fs "widget_type").getD PyVal.none ≠
          PyVal.str "product_card_snippet_type_2" ∨
        (snippetData fs).truthy = false) :
    parse_product_snippet fs c d = Except.ok Option.none := by
  rcases h with h | h
  · have hb : PyVal.beq ((dictGet fs "widget_type").getD PyVal.none)
        (PyVal.str "product_card_snippet_type_2") = false := by
      cases hbe : PyVal.beq ((dictGet fs "widget_type").getD PyVal.none)
          (PyVal.str "product_card_snippet_type_2") with
      | false => rfl
      | true => exact absurd ((beq_str_iff _ _).mp hbe) h
    simp [parse_product_snippet, hb]
  · simp [parse_product_snippet, h]

theorem c2_witness :
    (snippetData fsW2).truthy = false ∧
    parse_product_snippet fsW2 catW "2025-10-12" = Except.ok Option.none :=
  ⟨rfl,
    c2_normalizer_rejects_wrong_widget_or_empty_payload fsW2 catW "2025-10-12"
      (Or.inr rfl)⟩

/-- C3: on every accepted snippet, `in_stock` is the logical negation of the
payload's `is_sold_out` flag, which defaults to true when absent: absent
flag gives `in_stock = false`, flag `false` gives `in_stock = true`. -/
theorem c3_in_stock_negates_sold_out
    (fs : List (String × PyVal)) (c : Category) (d : String) :
    (∀ p ds, parse_product_snippet fs c d = Except.ok (Option.some p) →
      snippetData fs = PyVal.dict ds →
      p.in_stock = !((dictGet ds "is_sold_out").getD (PyVal.bool true)).truthy) ∧
    (∀ p ds, parse_product_snippet fs c d = Except.ok (Option.some p) →
      snippetData fs = PyVal.dict ds →
      dictGet ds "is_sold_out" = Option.none → p.in_stock = false) ∧
    (∀ p ds, parse_product_snippet fs c d = Except.ok (Option.some p) →
      snippetData fs = PyVal.dict ds →
      dictGet ds "is_sold_out" = Option.some (PyVal.bool false) →
      p.in_stock = true) := by
  have key : ∀ p ds,
      parse_product_snippet fs c d = Except.ok (Option.some p) →
      snippetData fs = PyVal.dict ds →
      p.in_stock = !((dictGet ds "is_sold_out").getD (PyVal.bool true)).truthy := by
    intro p ds hp hds
    obtain ⟨-, -, ds', hds', -, -, hstock⟩ := parse_ok_some fs c d p hp
    rw [hds'] at hds
    injection hds with hdd
    subst hdd
    exact hstock
  refine ⟨key, ?_, ?_⟩
  · intro p ds hp hds habs
    rw [key p ds hp hds, habs]
    rfl
  · intro p ds hp hds hfalse
    rw [key p ds hp hds, hfalse]
    rfl

theorem c3_witness :
    parse_product_snippet fsW3 catW "2025-10-12" =
      Except.ok (Option.some pW3) ∧
    dictGet dsW3 "is_sold_out" = Option.none ∧
    pW3.in_stock = false :=
  ⟨rfl, rfl,
    (c3_in_stock_negates_sold_out fsW3 catW "2025-10-12").2.1 pW3 dsW3 rfl rfl
      rfl⟩

/-- C9: the Record Normalizer is a pure function of its three arguments: equal
snippet, category context and date stamp always give an identical result. -/
theorem c9_normalizer_is_pure
    (s₁ s₂ : List (String × PyVal)) (c₁ c₂ : Category) (d₁ d₂ : String)
    (hs : s₁ = s₂) (hc : c₁ = c₂) (hd : d₁ = d₂) :
    parse_product_snippet s₁ c₁ d₁ = parse_product_snippet s₂ c₂ d₂ := by
  subst hs
  subst hc
  subst hd
  rfl

theorem c9_witness :
    parse_product_snippet fsW3 catW "2025-10-12" =
      parse_product_snippet fsW3 catW "2025-10-12" :=
  c9_normalizer_is_pure fsW3 fsW3 catW catW "2025-10-12" "2025-10-12" rfl rfl
    rfl

/-- C10: the acceptance gate tests truthiness, not presence: a `product_id`
or name text that is present in the payload but falsy (0, the empty string,
null) still makes the returning call yield "no record". -/
theorem c10_gate_tests_truthiness_not_presence
    (fs : List (String × PyVal)) (c : Category) (d : String) :
    (∀ r ds v, parse_product_snippet fs c d = Except.ok r →
      snippetData fs = PyVal.dict ds →
      dictGet ds "product_id" = Option.some v → v.truthy = false →
      r = Option.none) ∧
    (∀ r ds ns w, parse_product_snippet fs c d = Except.ok r →
      snippetData fs = PyVal.dict ds →
      dictGet ds "name" = Option.some (PyVal.dict ns) →
      dictGet ns "text" = Option.some w → w.truthy = false →
      r = Option.none) := by
  constructor
  · intro r ds v hr hds hv hfalsy
    apply parse_ok_gate_false fs c d r ds hr hds
    left
    rw [hv]
    simpa using hfalsy
  · intro r ds ns w hr hds hn hw hfalsy
    apply parse_ok_gate_false fs c d r ds hr hds
    right
    intro w' hw'
    rw [hn] at hw'
    simp [pyGetD, hw] at hw'
    subst hw'
    exact hfalsy

theorem c10_witness :
    parse_product_snippet fsW10 catW "2025-10-12" = Except.ok Option.none ∧
    dictGet dsW10 "product_id" = Option.some (PyVal.int 0) ∧
    (PyVal.int 0).truthy = false ∧
    (Option.none : Option Product) = Option.none :=
  ⟨rfl, rfl, rfl,
    (c10_gate_tests_truthiness_not_presence fsW10 catW "2025-10-12").1
      Option.none dsW10 (PyVal.int 0) rfl rfl rfl rfl⟩

/-! ## Claims about the Schema Reader and startup -/

/-- The spec's description of one schema entry: the first comma-separated
token of a line. -/
def firstCsvField (line : String) : String :=
  String.mk ((splitCommaList line.data).headD [])

lemma splitCommaList_ne_nil (cs : List Char) : splitCommaList cs ≠ [] := by
  cases cs with
  | nil => simp [splitCommaList]
  | cons c rest =>
    simp only [splitCommaList]
    split <;> simp

/-- C4: on an existing schema file with a title line, the Schema Reader
returns the first comma-separated token of each non-empty data line, in file
order, one per non-empty data line, duplicates preserved, empty lines
skipped. -/
theorem c4_schema_reader_returns_first_tokens (title : String)
    (rest : List String) :
    read_schema_columns (Option.some (title :: rest)) =
      Except.ok ((rest.filter (fun l => l != "")).map firstCsvField) := by
  simp only [read_schema_columns, Except.ok.injEq]
  induction rest with
  | nil => rfl
  | cons l rest ih =>
    by_cases hl : l = ""
    · subst hl
      simpa [csvRow] using ih
    · cases hsp : splitCommaList l.data with
      | nil => exact absurd hsp (splitCommaList_ne_nil l.data)
      | cons cell cells =>
        simpa [csvRow, hl, hsp, firstCsvField] using ih

/-- C5: a missing locations table, a missing categories table, or a schema
file yielding no field names (missing, empty, or title-only) makes the run
stop before the output file is opened and before any pair is scraped. -/
theorem c5_startup_failure_aborts_before_output (env : Env)
    (h : env.locationsFile = Option.none ∨ env.categoriesFile = Option.none ∨
        (∀ col cols, read_schema_columns env.schemaFile ≠
          Except.ok (col :: cols))) :
    (mainRun env).outputWritten = false ∧ (mainRun env).pairsRun = [] := by
  cases hl : env.locationsFile with
  | none => simp [mainRun, hl, RunResult.outputWritten, RunResult.pairsRun]
  | some locations =>
    cases hc : env.categoriesFile with
    | none =>
      simp [mainRun, hl, hc, RunResult.outputWritten, RunResult.pairsRun]
    | some categories =>
      rcases h with h | h | h
      · rw [hl] at h
        exact Option.noConfusion h
      · rw [hc] at h
        exact Option.noConfusion h
      · cases hs : read_schema_columns env.schemaFile with
        | error e =>
          cases e
          simp [mainRun, hl, hc, hs, RunResult.outputWritten,
            RunResult.pairsRun]
        | ok cols =>
          cases cols with
          | nil =>
            simp [mainRun, hl, hc, hs, RunResult.outputWritten,
              RunResult.pairsRun]
          | cons col cols => exact absurd hs (h col cols)

def envW5 : Env :=
  ⟨Option.none, Option.some [], Option.some ["Schema"], fun _ _ => [],
    "2025-10-12"⟩

theorem c5_witness :
    (mainRun envW5).outputWritten = false ∧ (mainRun envW5).pairsRun = [] :=
  c5_startup_failure_aborts_before_output envW5 (Or.inl rfl)

/-! ## Claims about the Pagination Walker and the Orchestrator -/

/-- A prefix of pages that all continue pagination contributes its rows and
its page count, and the loop's fate is decided by the remaining responses. -/
lemma scrapeLoop_append_continue (c : Category) (d : String)
    (pre rest : List FetchResult)
    (hpre : ∀ x ∈ pre, ∃ rs, processPage x c d = StepOutcome.continueNext rs) :
    scrapeLoop c d (pre ++ rest) =
      ⟨(scrapeLoop c d pre).rows ++ (scrapeLoop c d rest).rows,
        (scrapeLoop c d rest).pagesProcessed + pre.length,
        (scrapeLoop c d rest).errorsLogged⟩ := by
  induction pre with
  | nil => simp [scrapeLoop]
  | cons r pre ih =>
    obtain ⟨rs, hr⟩ := hpre r (List.mem_cons_self r pre)
    have ih' := ih (fun x hx => hpre x (List.mem_cons_of_mem r hx))
    simp [scrapeLoop, hr, ih', List.append_assoc, Nat.add_assoc]

/-- C6: when the request for the page after `pre` fails, the pair's loop logs
exactly one error and stops right there — the rows of the earlier pages are
kept, the remaining responses are never requested (no retry) — and the
orchestrator records the pair's outcome and goes on to the next pair. -/
theorem c6_request_failure_abandons_pair_only (c : Category) (d : String)
    (pre rest : List FetchResult)
    (hpre : ∀ x ∈ pre, ∃ rs, processPage x c d = StepOutcome.continueNext rs) :
    scrapeLoop c d (pre ++ FetchResult.fail :: rest) =
      ⟨(scrapeLoop c d pre).rows, pre.length + 1, 1⟩ ∧
    (∀ (api : Location → Category → List FetchResult) (l : Location)
        (c2 : Category) (cats : List Category),
      runCats api d l (c2 :: cats) =
        (l, c2, scrape_category_for_location api l c2 d) ::
          runCats api d l cats) := by
  constructor
  · rw [scrapeLoop_append_continue c d pre (FetchResult.fail :: rest) hpre]
    simp [scrapeLoop, processPage, Nat.add_comm]
  · intro api l c2 cats
    rfl

/-- C7: a successfully fetched page whose snippet list is empty ends the
pair's loop without an error: no rows are added, nothing is logged as an
error, and no further response is consumed. -/
theorem c7_empty_snippet_page_ends_pair (c : Category) (d : String)
    (body resp snippets : PyVal) (pre rest : List FetchResult)
    (hpre : ∀ x ∈ pre, ∃ rs, processPage x c d = StepOutcome.continueNext rs)
    (hresp : pyGetD body "response" (PyVal.dict []) = Except.ok resp)
    (hsnip : pyGetD resp "snippets" (PyVal.list []) = Except.ok snippets)
    (hempty : snippets.truthy = false) :
    processPage (FetchResult.page body) c d = StepOutcome.stopOk [] ∧
    scrapeLoop c d (pre ++ FetchResult.page body :: rest) =
      ⟨(scrapeLoop c d pre).rows, pre.length + 1, 0⟩ := by
  have hpp : processPage (FetchResult.page body) c d = StepOutcome.stopOk [] := by
    simp [processPage, hresp, hsnip, hempty]
  refine ⟨hpp, ?_⟩
  rw [scrapeLoop_append_continue c d pre (FetchResult.page body :: rest) hpre]
  simp [scrapeLoop, hpp, Nat.add_comm]

lemma runCats_length (api : Location → Category → List FetchResult)
    (d : String) (l : Location) (cats : List Category) :
    (runCats api d l cats).length = cats.length := by
  induction cats with
  | nil => rfl
  | cons ct cats ih => simp [runCats, ih]

lemma runCats_map (api : Location → Category → List FetchResult) (d : String)
    (l : Location) (cats : List Category) :
    (runCats api d l cats).map (fun e => (e.1, e.2.1)) =
      cats.map (fun ct => (l, ct)) := by
  induction cats with
  | nil => rfl
  | cons ct cats ih => simp [runCats, ih]

lemma runCats_result (api : Location → Category → List FetchResult)
    (d : String) (l : Location) (cats : List Category) :
    ∀ e ∈ runCats api d l cats,
      e.2.2 = scrape_category_for_location api e.1 e.2.1 d := by
  induction cats with
  | nil =>
    intro e he
    exact absurd he (List.not_mem_nil e)
  | cons ct cats ih =>
    intro e he
    rcases List.mem_cons.mp he with he | he
    · subst he
      rfl
    · exact ih e he

/-- The spec's location-major, category-minor cross product of the two input
tables. -/
def locationMajorPairs : List Location → List Category → List (Location × Category)
  | [], _ => []
  | l :: ls, cats => cats.map (fun ct => (l, ct)) ++ locationMajorPairs ls cats

/-- C8: the orchestrator invokes the Pagination Walker exactly N×M times,
once per (location, category) pair in location-major, category-minor order,
and each pair's outcome is exactly the walker's result for that pair alone
(no cross-pair state). -/
theorem c8_orchestrator_full_cross_product
    (api : Location → Category → List FetchResult) (d : String)
    (locs : List Location) (cats : List Category) :
    (runPairs api d locs cats).length = locs.length * cats.length ∧
    (runPairs api d locs cats).map (fun e => (e.1, e.2.1)) =
      locationMajorPairs locs cats ∧
    (∀ e ∈ runPairs api d locs cats,
      e.2.2 = scrape_category_for_location api e.1 e.2.1 d) := by
  induction locs with
  | nil =>
    refine ⟨by simp [runPairs], rfl, ?_⟩
    intro e he
    exact absurd he (List.not_mem_nil e)
  | cons l ls ih =>
    obtain ⟨ih1, ih2, ih3⟩ := ih
    refine ⟨?_, ?_, ?_⟩
    · show (runCats api d l cats ++ runPairs api d ls cats).length = _
      rw [List.length_append, runCats_length, ih1, List.length_cons,
        Nat.succ_mul]
      omega
    · simp [runPairs, locationMajorPairs, runCats_map, ih2]
    · intro e he
      rcases List.mem_append.mp (by simpa [runPairs] using he) with he | he
      · exact runCats_result api d l cats e he
      · exact ih3 e he

def locW : Location := ⟨28, 77⟩

def locW2 : Location := ⟨19, 72⟩

def catW2 : Category := ⟨"Dairy", "14", "Milk", "922"⟩

def apiW : Location → Category → List FetchResult := fun _ _ => []

/-- A page body holding one accepted snippet and a next-page pointer. -/
def pageBodyW : PyVal :=
  PyVal.dict [("response", PyVal.dict [
    ("snippets", PyVal.list [PyVal.dict fsW3]),
    ("pagination", PyVal.dict [("next_url", PyVal.str "/v1/page2")])])]

/-- A page body with an empty snippet list. -/
def lastBodyW : PyVal :=
  PyVal.dict [("response", PyVal.dict [
    ("snippets", PyVal.list []),
    ("pagination", PyVal.dict [])])]

theorem c6_witness :
    scrapeLoop catW "2025-10-12"
        ([FetchResult.page pageBodyW] ++ FetchResult.fail :: []) =
      ⟨(scrapeLoop catW "2025-10-12" [FetchResult.page pageBodyW]).rows,
        1 + 1, 1⟩ ∧
    runCats apiW "2025-10-12" locW (catW :: []) =
      (locW, catW,
        scrape_category_for_location apiW locW catW "2025-10-12") ::
        runCats apiW "2025-10-12" locW [] :=
  have hpre : ∀ x ∈ [FetchResult.page pageBodyW], ∃ rs,
      processPage x catW "2025-10-12" = StepOutcome.continueNext rs :=
    fun x hx => by
      rw [List.mem_singleton] at hx
      subst hx
      exact ⟨_, rfl⟩
  ⟨(c6_request_failure_abandons_pair_only catW "2025-10-12"
      [FetchResult.page pageBodyW] [] hpre).1,
    (c6_request_failure_abandons_pair_only catW "2025-10-12"
      [FetchResult.page pageBodyW] [] hpre).2 apiW locW catW []⟩

theorem c7_witness :
    processPage (FetchResult.page lastBodyW) catW "2025-10-12" =
      StepOutcome.stopOk [] ∧
    scrapeLoop catW "2025-10-12" ([] ++ FetchResult.page lastBodyW :: []) =
      ⟨(scrapeLoop catW "2025-10-12" []).rows, 0 + 1, 0⟩ :=
  c7_empty_snippet_page_ends_pair catW "2025-10-12" lastBodyW
    (PyVal.dict [("snippets", PyVal.list []), ("pagination", PyVal.dict [])])
    (PyVal.list []) [] []
    (fun x hx => absurd hx (List.not_mem_nil x)) rfl rfl rfl

theorem c8_witness :
    (runPairs apiW "2025-10-12" [locW, locW2] [catW, catW2]).length = 2 * 2 ∧
    (runPairs apiW "2025-10-12" [locW, locW2] [catW, catW2]).map
        (fun e => (e.1, e.2.1)) =
      locationMajorPairs [locW, locW2] [catW, catW2] :=
  ⟨(c8_orchestrator_full_cross_product apiW "2025-10-12" [locW, locW2]
      [catW, catW2]).1,
    (c8_orchestrator_full_cross_product apiW "2025-10-12" [locW, locW2]
      [catW, catW2]).2.1⟩
